import Mathlib

set_option maxHeartbeats 1000000

/-!
Shallow embedding of the two Python modules of the repository:
scripts/config/__init__.py (the YAML settings loader) and
scripts/data_pipeline/extract_data.py (the Gold Layer CSV extractor).
External library behaviour that the code depends on (pyyaml, pandas,
the Python import machinery) is modelled only where the code exercises
it, with a doc comment naming the modelled fact.
-/

namespace SqlAnalytics

/-- A parsed YAML value, as the Python object returned by yaml.safe_load:
None, strings, numbers, mappings and sequences. -/
inductive Yaml where
  | null : Yaml
  | str : String → Yaml
  | num : Int → Yaml
  | map : List (String × Yaml) → Yaml
  | seq : List Yaml → Yaml

/-- Python truthiness of a parsed YAML value, as tested by the guard
`if not settings` on line 20 of scripts/config/__init__.py. -/
def Yaml.falsy : Yaml → Bool
  | .null => true
  | .str s => s.isEmpty
  | .num n => n == 0
  | .map m => m.isEmpty
  | .seq l => l.isEmpty

/-- Outcome of the try-block body on lines 18-19 of
scripts/config/__init__.py: opening the file may raise FileNotFoundError
(caught on line 24), yaml.safe_load may raise yaml.YAMLError (caught on
line 28), and any other exception from the block is not caught by either
handler. -/
inductive ReadExc where
  | fileNotFound : ReadExc
  | yamlError : String → ReadExc
  | otherExc : String → ReadExc
deriving DecidableEq

/-- The log lines the config loader can emit (lines 21, 23, 25, 29 of
scripts/config/__init__.py). -/
inductive ConfigLog where
  | loadedOk : ConfigLog
  | emptyWarning : ConfigLog
  | notFoundError : ConfigLog
  | parseError : ConfigLog
deriving DecidableEq

/-- Result of executing the module body of scripts/config/__init__.py:
the final value of the module-level variable `settings` (Yaml.null models
Python None, its initial value from line 14), the log lines emitted at
each severity, and an exception escaping the try/except unhandled, if
any. -/
structure LoadOutcome where
  settings : Yaml
  infoLogs : List ConfigLog
  warnLogs : List ConfigLog
  errLogs : List ConfigLog
  unhandled : Option String

/-- Lines 14-30 of scripts/config/__init__.py: `settings` starts as None;
the file is opened and parsed inside try; FileNotFoundError and
yaml.YAMLError are caught and logged with logger.error; a successful but
falsy parse result logs a warning; a truthy one logs an info line; any
other exception propagates unhandled, leaving `settings` at None. -/
def loadSettings (file : Except ReadExc Yaml) : LoadOutcome :=
  match file with
  | .error .fileNotFound =>
      { settings := .null, infoLogs := [], warnLogs := [],
        errLogs := [.notFoundError], unhandled := none }
  | .error (.yamlError _) =>
      { settings := .null, infoLogs := [], warnLogs := [],
        errLogs := [.parseError], unhandled := none }
  | .error (.otherExc m) =>
      { settings := .null, infoLogs := [], warnLogs := [],
        errLogs := [], unhandled := some m }
  | .ok v =>
      if v.falsy then
        { settings := v, infoLogs := [], warnLogs := [.emptyWarning],
          errLogs := [], unhandled := none }
      else
        { settings := v, infoLogs := [.loadedOk], warnLogs := [],
          errLogs := [], unhandled := none }

/-- Modelled from pyyaml semantics: yaml.safe_load applied to an empty
document returns Python None, so for an existing but empty settings.yaml
the try-block body on lines 18-19 completes normally with the value
None. -/
def safeLoadEmptyFile : Except ReadExc Yaml := Except.ok Yaml.null

/-- Python exceptions that the extractor code can raise or observe. -/
inductive PyExc where
  | typeError : String → PyExc
  | importError : String → PyExc
  | keyError : String → PyExc
  | dbError : String → PyExc
deriving DecidableEq, Repr

/-- The message text carried by an exception, as interpolated into the
log line on line 125 of extract_data.py. -/
def PyExc.message : PyExc → String
  | .typeError m => m
  | .importError m => m
  | .keyError m => m
  | .dbError m => m

/-- One DataFrame chunk yielded by pd.read_sql with a chunksize: its
column names and its rows of cell values. -/
structure Chunk where
  columns : List String
  rows : List (List String)
deriving DecidableEq, Repr

/-- One line of a CSV file as DataFrame.to_csv would emit it: either the
header line of column names or a data line of cell values. -/
inductive CsvLine where
  | headerLine : List String → CsvLine
  | dataLine : List String → CsvLine
deriving DecidableEq, Repr

/-- The local files the extractor writes: an association of path to file
content. -/
abbrev FileSystem := List (String × List CsvLine)

def fsLookup (fs : FileSystem) (p : String) : Option (List CsvLine) :=
  (fs.find? (fun e => e.fst == p)).map Prod.snd

/-- os.path.exists on a path, line 114 of extract_data.py. -/
def fsExists (fs : FileSystem) (p : String) : Bool :=
  (fsLookup fs p).isSome

/-- Writing a file in truncating mode: replaces existing content or
creates the file. -/
def fsWrite (fs : FileSystem) (p : String) (content : List CsvLine) : FileSystem :=
  if fsExists fs p then
    fs.map (fun e => if e.fst == p then (p, content) else e)
  else
    fs ++ [(p, content)]

/-- Writing a file in append mode: extends existing content or creates
the file. -/
def fsAppend (fs : FileSystem) (p : String) (content : List CsvLine) : FileSystem :=
  if fsExists fs p then
    fs.map (fun e => if e.fst == p then (p, e.snd ++ content) else e)
  else
    fs ++ [(p, content)]

/-- Modelled from the pandas API: the keyword parameters accepted by
DataFrame.to_csv. The first positional parameter is named path_or_buf;
there is no parameter named path. -/
def toCsvParams : List String :=
  ["path_or_buf", "sep", "na_rep", "float_format", "columns", "header",
   "index", "index_label", "mode", "encoding", "compression", "quoting",
   "quotechar", "lineterminator", "chunksize", "date_format", "doublequote",
   "escapechar", "decimal", "errors", "storage_options"]

/-- The keyword argument names used at the call site on lines 115-120 of
extract_data.py: chunk.to_csv(path=csv_path, index=False, header=...,
mode=...). -/
def chunkToCsvCallKwargs : List String :=
  ["path", "index", "header", "mode"]

/-- The CSV lines a chunk contributes: an optional header line followed
by one data line per row (index=False, so no index column). -/
def chunkCsvLines (c : Chunk) (writeHeader : Bool) : List CsvLine :=
  (if writeHeader then [CsvLine.headerLine c.columns] else [])
    ++ c.rows.map CsvLine.dataLine

/-- Modelled from Python call semantics: a call of DataFrame.to_csv with
the given keyword argument names raises TypeError at an unexpected
keyword argument before writing anything; otherwise it writes the chunk
to the path in truncating or appending mode. -/
def toCsvCall (kwargs : List String) (fs : FileSystem) (p : String)
    (c : Chunk) (writeHeader : Bool) (append : Bool) :
    Except PyExc FileSystem :=
  match kwargs.find? (fun k => !(toCsvParams.contains k)) with
  | some bad =>
      Except.error (PyExc.typeError
        ("to_csv got an unexpected keyword argument " ++ bad))
  | none =>
      let lines := chunkCsvLines c writeHeader
      Except.ok (if append then fsAppend fs p lines else fsWrite fs p lines)

/-- os.path.join of the output directory and the csv file name, line 113
of extract_data.py. -/
def joinPath (dir file : String) : String := dir ++ "/" ++ file

/-- Result of running the chunk loop of one view (lines 110-122): the
filesystem after the writes that succeeded, the accumulated total_rows,
and the exception that aborted the loop, if any. -/
structure ChunkLoopResult where
  fs : FileSystem
  totalRows : Nat
  exc : Option PyExc

/-- The inner chunk loop, lines 110-122 of extract_data.py: for chunk i,
csv_path is the joined output path, write_header is
`not os.path.exists(csv_path) or i == 0`, mode is truncate for i = 0 and
append otherwise, and total_rows grows by the chunk length; the first
raising write aborts the loop, keeping the earlier writes. -/
def processChunks (fs : FileSystem) (dir view : String) :
    List Chunk → Nat → Nat → ChunkLoopResult
  | [], _, total => ⟨fs, total, none⟩
  | c :: rest, i, total =>
      let csvPath := joinPath dir (view ++ ".csv")
      let writeHeader := !(fsExists fs csvPath) || i == 0
      match toCsvCall chunkToCsvCallKwargs fs csvPath c writeHeader (i != 0) with
      | .error e => ⟨fs, total, some e⟩
      | .ok fs2 => processChunks fs2 dir view rest (i + 1) (total + c.rows.length)

/-- The log lines extract_data.py emits, by the format string at each
call site (lines 84, 86, 97, 99, 103, 107, 122, 123, 125, 127). -/
inductive LogMsg where
  | engineCreated : LogMsg
  | engineCreationError : String → LogMsg
  | outputDirReady : String → LogMsg
  | outputDirError : String → LogMsg
  | startingExtraction : LogMsg
  | processingView : String → LogMsg
  | successExtracted : Nat → String → LogMsg
  | errorExtracting : String → String → LogMsg
  | extractionComplete : LogMsg
deriving DecidableEq, Repr

/-- The mutable state the extractor threads through its run: the
filesystem and the log lines emitted at each severity. -/
structure RunState where
  fs : FileSystem
  infoLogs : List LogMsg
  errorLogs : List LogMsg
  criticalLogs : List LogMsg

/-- The database as observed through pd.read_sql with a chunksize: each
query text either raises or yields the list of chunks the iterator
produces. -/
abbrev Database := String → Except PyExc (List Chunk)

/-- One iteration of the view loop, lines 106-125 of extract_data.py:
log the processing line, run SELECT * against the view, stream the
chunks; on success log the total row count, and on any exception during
the query or a chunk write, log the error and return (the surrounding
loop continues). -/
def extractView (st : RunState) (dir : String) (db : Database)
    (view : String) : RunState :=
  let st1 := { st with infoLogs := st.infoLogs ++ [LogMsg.processingView view] }
  match db ("SELECT * FROM " ++ view) with
  | .error e =>
      { st1 with errorLogs := st1.errorLogs ++ [LogMsg.errorExtracting view e.message] }
  | .ok chunks =>
      let r := processChunks st.fs dir view chunks 0 0
      match r.exc with
      | some e =>
          { st1 with
            fs := r.fs
            errorLogs := st1.errorLogs ++ [LogMsg.errorExtracting view e.message] }
      | none =>
          { st1 with
            fs := r.fs
            infoLogs := st1.infoLogs ++ [LogMsg.successExtracted r.totalRows view] }

/-- The exception raised inside the try block of one view iteration
(lines 109-123), if any: either the query raises or the chunk loop
raises. -/
def viewAttemptExc (fs : FileSystem) (dir : String) (db : Database)
    (view : String) : Option PyExc :=
  match db ("SELECT * FROM " ++ view) with
  | .error e => some e
  | .ok chunks => (processChunks fs dir view chunks 0 0).exc

/-- The view loop of lines 106-125: process each configured view in list
order, containing per-view failures. -/
def extractionLoop (dir : String) (db : Database) :
    List String → RunState → RunState
  | [], st => st
  | v :: rest, st => extractionLoop dir db rest (extractView st dir db v)

/-- The hardcoded list of Gold Layer views, lines 65-69 of
extract_data.py. -/
def GOLD_VIEWS : List String :=
  ["gold.dim_customers", "gold.dim_products", "gold.fact_sales"]

/-- Outcome of the script body from engine creation onwards: the final
run state and the process exit code. -/
structure ScriptResult where
  state : RunState
  exitCode : Nat

/-- Lines 82-127 of extract_data.py: if create_engine raises, log
critical and sys.exit(1); else if os.makedirs raises, log critical and
sys.exit(1); else log the directory-ready and start lines, run the view
loop over the configured views, log completion and finish with exit
code 0. -/
def runScript (engineResult makedirsResult : Except String Unit)
    (dir : String) (views : List String) (db : Database)
    (fs0 : FileSystem) : ScriptResult :=
  match engineResult with
  | .error e =>
      { state := { fs := fs0, infoLogs := [], errorLogs := [],
                   criticalLogs := [LogMsg.engineCreationError e] },
        exitCode := 1 }
  | .ok _ =>
      let st0 : RunState :=
        { fs := fs0, infoLogs := [LogMsg.engineCreated], errorLogs := [],
          criticalLogs := [] }
      match makedirsResult with
      | .error e =>
          { state := { st0 with criticalLogs := [LogMsg.outputDirError e] },
            exitCode := 1 }
      | .ok _ =>
          let st1 := { st0 with infoLogs := st0.infoLogs ++
            [LogMsg.outputDirReady dir, LogMsg.startingExtraction] }
          let st2 := extractionLoop dir db views st1
          { state := { st2 with infoLogs := st2.infoLogs ++ [LogMsg.extractionComplete] },
            exitCode := 0 }

/-- The names bound at top level by executing the module body of
scripts/config/__init__.py: its imports and the assignments on lines 6,
10, 11, 14 and 19. No function load_yaml_config is defined anywhere in
the module. -/
def scriptsConfigModuleNames : List String :=
  ["yaml", "os", "logging", "logger", "config_dir", "config_path", "settings"]

/-- Modelled from the Python import machinery: `from M import name`
executes the module body of M, then raises ImportError when the module
does not bind the requested name. -/
def fromImportName (moduleNames : List String) (name : String) :
    Except PyExc Unit :=
  if moduleNames.contains name then Except.ok ()
  else Except.error (PyExc.importError ("cannot import name " ++ name))

/-- The whole module execution of extract_data.py: the import section on
lines 33-40 runs first, in particular
`from scripts.config import load_yaml_config` on line 40; only if
every imported name resolves does the script body (config read, engine
creation, directory setup, extraction loop) run at all. -/
def importAndRun (engineResult makedirsResult : Except String Unit)
    (dir : String) (views : List String) (db : Database)
    (fs0 : FileSystem) : Except PyExc ScriptResult :=
  match fromImportName scriptsConfigModuleNames "load_yaml_config" with
  | .error e => Except.error e
  | .ok _ => Except.ok (runScript engineResult makedirsResult dir views db fs0)

/-- A process environment: variable names to values; absence models an
unset variable, for which os.getenv returns None. -/
abbrev Env := List (String × String)

def envLookup (env : Env) (k : String) : Option String :=
  (env.find? (fun e => e.fst == k)).map Prod.snd

def yamlLookup (m : List (String × Yaml)) (k : String) : Option Yaml :=
  (m.find? (fun e => e.fst == k)).map Prod.snd

/-- Line 62 of extract_data.py:
SQL_PASSWORD = os.getenv(db_config['password_env_var']). The subscript
raises KeyError when the key is absent; os.getenv requires a string key
and returns the value of that environment variable, or None when the
variable is unset, without validation. -/
def resolvePassword (dbConfig : List (String × Yaml)) (env : Env) :
    Except PyExc (Option String) :=
  match yamlLookup dbConfig "password_env_var" with
  | some (.str v) => Except.ok (envLookup env v)
  | some _ => Except.error (PyExc.typeError "getenv key must be a string")
  | none => Except.error (PyExc.keyError "password_env_var")

/-- The TypeError message produced by the to_csv call site of
extract_data.py, whose first unexpected keyword argument is path. -/
def pathKwErrMsg : String := "to_csv got an unexpected keyword argument path"

/-- A concrete database for evaluation: gold.dim_customers holds two
rows delivered in one chunk; the other views are empty with no chunks
yielded. -/
def twoRowDb : Database := fun q =>
  if q == "SELECT * FROM gold.dim_customers" then
    Except.ok [⟨["customer_key", "first_name"], [["1", "Ann"], ["2", "Bo"]]⟩]
  else
    Except.ok []

/-- A concrete database for evaluation: gold.dim_customers holds zero
rows, delivered as one empty chunk carrying only the column names (the
pandas read_sql iterator behaviour for an empty result); the other views
yield no chunks. -/
def zeroRowDb : Database := fun q =>
  if q == "SELECT * FROM gold.dim_customers" then
    Except.ok [⟨["customer_key", "first_name"], []⟩]
  else
    Except.ok []

/-- A concrete database for evaluation whose every query raises. -/
def failingDb : Database := fun _ =>
  Except.error (PyExc.dbError "boom")

/-- The empty initial run state over an empty filesystem. -/
def emptyState : RunState :=
  { fs := [], infoLogs := [], errorLogs := [], criticalLogs := [] }

/-- C6: if the configuration file is missing, or present but unparseable,
the loader logs an error, does not raise an unhandled exception, and the
module-level settings value stays None (no usable configuration). -/
theorem c6_missing_or_malformed_config (file : Except ReadExc Yaml)
    (h : file = Except.error ReadExc.fileNotFound ∨
         ∃ m, file = Except.error (ReadExc.yamlError m)) :
    (loadSettings file).unhandled = none ∧
    (loadSettings file).errLogs ≠ [] ∧
    (loadSettings file).settings = Yaml.null := by
  rcases h with h | ⟨m, h⟩ <;> subst h <;>
    exact ⟨rfl, by simp [loadSettings], rfl⟩

/-- C6 witness: the missing-file case at a concrete input. -/
theorem c6_missing_or_malformed_config_witness :
    (loadSettings (Except.error ReadExc.fileNotFound)).unhandled = none ∧
    (loadSettings (Except.error ReadExc.fileNotFound)).errLogs ≠ [] ∧
    (loadSettings (Except.error ReadExc.fileNotFound)).settings = Yaml.null :=
  c6_missing_or_malformed_config (Except.error ReadExc.fileNotFound) (Or.inl rfl)

/-- C7 counterexample: for an existing but empty configuration file the
loader does not return an empty mapping. yaml.safe_load yields None for
an empty document, so the settings value is None, which is not the empty
mapping. -/
theorem c7_empty_config_counterexample :
    (loadSettings safeLoadEmptyFile).settings ≠ Yaml.map [] := by
  intro h
  exact Yaml.noConfusion h

/-- C7 amended: if the configuration file exists but is empty, the loader
leaves the settings value as None (a falsy value, not an empty mapping)
and logs a warning, not an error, with no unhandled exception. -/
theorem c7_empty_config_amended :
    (loadSettings safeLoadEmptyFile).settings = Yaml.null ∧
    (loadSettings safeLoadEmptyFile).warnLogs = [ConfigLog.emptyWarning] ∧
    (loadSettings safeLoadEmptyFile).errLogs = [] ∧
    (loadSettings safeLoadEmptyFile).unhandled = none :=
  ⟨rfl, rfl, rfl, rfl⟩

/-- The to_csv call site passes the keyword path, which DataFrame.to_csv
does not accept, so every such call raises TypeError before writing. -/
theorem toCsvCall_raises (fs : FileSystem) (p : String) (c : Chunk)
    (w a : Bool) :
    toCsvCall chunkToCsvCallKwargs fs p c w a =
      Except.error (PyExc.typeError pathKwErrMsg) := rfl

/-- With at least one chunk, the chunk loop stops at the first write with
the TypeError, leaving the filesystem and total unchanged. -/
theorem processChunks_cons (fs : FileSystem) (dir v : String) (c : Chunk)
    (rest : List Chunk) (i total : Nat) :
    processChunks fs dir v (c :: rest) i total =
      ⟨fs, total, some (PyExc.typeError pathKwErrMsg)⟩ := rfl

/-- The processing log line of a view is always emitted by its loop
iteration. -/
theorem processingView_mem_extractView (st : RunState) (dir : String)
    (db : Database) (v : String) :
    LogMsg.processingView v ∈ (extractView st dir db v).infoLogs := by
  unfold extractView
  cases hdb : db ("SELECT * FROM " ++ v) with
  | error e => simp
  | ok chunks =>
    cases hexc : (processChunks st.fs dir v chunks 0 0).exc with
    | some e => simp [hexc]
    | none => simp [hexc]

/-- A loop iteration only appends to the info log. -/
theorem extractView_info_mono (st : RunState) (dir : String) (db : Database)
    (v : String) (m : LogMsg) (h : m ∈ st.infoLogs) :
    m ∈ (extractView st dir db v).infoLogs := by
  unfold extractView
  cases hdb : db ("SELECT * FROM " ++ v) with
  | error e => simp [h]
  | ok chunks =>
    cases hexc : (processChunks st.fs dir v chunks 0 0).exc with
    | some e => simp [hexc, h]
    | none => simp [hexc, h]

/-- A loop iteration only appends to the error log. -/
theorem extractView_error_mono (st : RunState) (dir : String) (db : Database)
    (v : String) (m : LogMsg) (h : m ∈ st.errorLogs) :
    m ∈ (extractView st dir db v).errorLogs := by
  unfold extractView
  cases hdb : db ("SELECT * FROM " ++ v) with
  | error e => simp [h]
  | ok chunks =>
    cases hexc : (processChunks st.fs dir v chunks 0 0).exc with
    | some e => simp [hexc, h]
    | none => simp [hexc, h]

/-- When the try block of a view raises, the iteration appends exactly
the error log line for that view and the processing info line. -/
theorem extractView_error_branch (st : RunState) (dir : String)
    (db : Database) (v : String) (e : PyExc)
    (h : viewAttemptExc st.fs dir db v = some e) :
    (extractView st dir db v).errorLogs =
      st.errorLogs ++ [LogMsg.errorExtracting v e.message] ∧
    (extractView st dir db v).infoLogs =
      st.infoLogs ++ [LogMsg.processingView v] := by
  unfold viewAttemptExc at h
  unfold extractView
  cases hdb : db ("SELECT * FROM " ++ v) with
  | error e2 =>
    rw [hdb] at h
    simp at h
    subst h
    exact ⟨rfl, rfl⟩
  | ok chunks =>
    rw [hdb] at h
    simp at h
    simp [h]

/-- Splitting the view loop at any point. -/
theorem extractionLoop_append (dir : String) (db : Database)
    (l1 l2 : List String) (st : RunState) :
    extractionLoop dir db (l1 ++ l2) st =
      extractionLoop dir db l2 (extractionLoop dir db l1 st) := by
  induction l1 generalizing st with
  | nil => rfl
  | cons v rest ih => simpa [extractionLoop] using ih (extractView st dir db v)

/-- The view loop only appends to the info log. -/
theorem extractionLoop_info_mono (dir : String) (db : Database)
    (views : List String) (st : RunState) (m : LogMsg)
    (h : m ∈ st.infoLogs) :
    m ∈ (extractionLoop dir db views st).infoLogs := by
  induction views generalizing st with
  | nil => exact h
  | cons v rest ih =>
    exact ih (extractView st dir db v) (extractView_info_mono st dir db v m h)

/-- The view loop only appends to the error log. -/
theorem extractionLoop_error_mono (dir : String) (db : Database)
    (views : List String) (st : RunState) (m : LogMsg)
    (h : m ∈ st.errorLogs) :
    m ∈ (extractionLoop dir db views st).errorLogs := by
  induction views generalizing st with
  | nil => exact h
  | cons v rest ih =>
    exact ih (extractView st dir db v) (extractView_error_mono st dir db v m h)

/-- Every view of the list gets its processing log line, whatever the
database does. -/
theorem extractionLoop_processing_mem (dir : String) (db : Database)
    (views : List String) (st : RunState) :
    ∀ v ∈ views, LogMsg.processingView v ∈ (extractionLoop dir db views st).infoLogs := by
  induction views generalizing st with
  | nil =>
    intro v hv
    cases hv
  | cons w rest ih =>
    intro v hv
    rcases List.mem_cons.mp hv with h | h
    · subst h
      exact extractionLoop_info_mono dir db rest (extractView st dir db v)
        (LogMsg.processingView v) (processingView_mem_extractView st dir db v)
    · exact ih (extractView st dir db w) v h

/-- C10: for every view whose query yields at least one chunk, the first
chunk write raises TypeError, because to_csv is invoked with the keyword
argument path, which DataFrame.to_csv does not accept; the view
therefore takes the per-view error branch, and no CSV file content is
written by the iteration. -/
theorem c10_to_csv_type_error (st : RunState) (dir view : String)
    (db : Database) (c0 : Chunk) (rest : List Chunk)
    (hdb : db ("SELECT * FROM " ++ view) = Except.ok (c0 :: rest)) :
    viewAttemptExc st.fs dir db view = some (PyExc.typeError pathKwErrMsg) ∧
    (extractView st dir db view).fs = st.fs ∧
    (extractView st dir db view).infoLogs =
      st.infoLogs ++ [LogMsg.processingView view] ∧
    (extractView st dir db view).errorLogs =
      st.errorLogs ++ [LogMsg.errorExtracting view pathKwErrMsg] := by
  have hexc : viewAttemptExc st.fs dir db view =
      some (PyExc.typeError pathKwErrMsg) := by
    unfold viewAttemptExc
    rw [hdb]
    simp [processChunks_cons]
  have hev : extractView st dir db view =
      { fs := st.fs
        infoLogs := st.infoLogs ++ [LogMsg.processingView view]
        errorLogs := st.errorLogs ++ [LogMsg.errorExtracting view pathKwErrMsg]
        criticalLogs := st.criticalLogs } := by
    unfold extractView
    rw [hdb]
    simp [processChunks_cons, PyExc.message]
  exact ⟨hexc, by rw [hev], by rw [hev], by rw [hev]⟩

/-- C10 witness: a view delivering one chunk of two rows over an empty
filesystem. -/
theorem c10_to_csv_type_error_witness :
    viewAttemptExc emptyState.fs "data/gold_tables" twoRowDb "gold.dim_customers" =
      some (PyExc.typeError pathKwErrMsg) ∧
    (extractView emptyState "data/gold_tables" twoRowDb "gold.dim_customers").fs =
      emptyState.fs ∧
    (extractView emptyState "data/gold_tables" twoRowDb "gold.dim_customers").infoLogs =
      emptyState.infoLogs ++ [LogMsg.processingView "gold.dim_customers"] ∧
    (extractView emptyState "data/gold_tables" twoRowDb "gold.dim_customers").errorLogs =
      emptyState.errorLogs ++
        [LogMsg.errorExtracting "gold.dim_customers" pathKwErrMsg] :=
  c10_to_csv_type_error emptyState "data/gold_tables" "gold.dim_customers" twoRowDb
    ⟨["customer_key", "first_name"], [["1", "Ann"], ["2", "Bo"]]⟩ [] rfl

/-- C3: if the view after the prefix pre of the list (position k =
length of pre) raises any exception during its extraction, the error is
logged and every subsequent view in the list is still processed; one
view never aborts the run. -/
theorem c3_per_view_error_isolation (dir : String) (db : Database)
    (st : RunState) (pre rest : List String) (v : String) (e : PyExc)
    (hfail : viewAttemptExc (extractionLoop dir db pre st).fs dir db v = some e) :
    LogMsg.errorExtracting v e.message ∈
      (extractionLoop dir db (pre ++ v :: rest) st).errorLogs ∧
    ∀ w ∈ rest, LogMsg.processingView w ∈
      (extractionLoop dir db (pre ++ v :: rest) st).infoLogs := by
  rw [extractionLoop_append]
  constructor
  · have h1 := (extractView_error_branch (extractionLoop dir db pre st) dir db v e hfail).1
    have h2 : LogMsg.errorExtracting v e.message ∈
        (extractView (extractionLoop dir db pre st) dir db v).errorLogs := by
      rw [h1]
      simp
    exact extractionLoop_error_mono dir db rest _ _ h2
  · intro w hw
    exact extractionLoop_processing_mem dir db rest _ w hw

/-- C3 witness: the first view fails (the database raises) and the next
view is still processed. -/
theorem c3_per_view_error_isolation_witness :
    viewAttemptExc (extractionLoop "out" failingDb [] emptyState).fs "out"
      failingDb "gold.dim_customers" = some (PyExc.dbError "boom") ∧
    (LogMsg.errorExtracting "gold.dim_customers" (PyExc.dbError "boom").message ∈
      (extractionLoop "out" failingDb
        ([] ++ "gold.dim_customers" :: ["gold.dim_products"]) emptyState).errorLogs ∧
    ∀ w ∈ ["gold.dim_products"], LogMsg.processingView w ∈
      (extractionLoop "out" failingDb
        ([] ++ "gold.dim_customers" :: ["gold.dim_products"]) emptyState).infoLogs) :=
  ⟨rfl, c3_per_view_error_isolation "out" failingDb emptyState []
    ["gold.dim_products"] "gold.dim_customers" (PyExc.dbError "boom") rfl⟩

/-- C4: if engine creation fails, or if output directory creation fails,
the run logs at critical severity, terminates with exit code 1, leaves
the filesystem untouched, and attempts no view extraction. -/
theorem c4_setup_failure_fatal (er mr : Except String Unit) (dir : String)
    (views : List String) (db : Database) (fs0 : FileSystem)
    (h : (∃ e, er = Except.error e) ∨ (∃ e, mr = Except.error e)) :
    (runScript er mr dir views db fs0).exitCode = 1 ∧
    (runScript er mr dir views db fs0).state.criticalLogs ≠ [] ∧
    (runScript er mr dir views db fs0).state.fs = fs0 ∧
    ∀ v, LogMsg.processingView v ∉
      (runScript er mr dir views db fs0).state.infoLogs := by
  rcases h with ⟨e, he⟩ | ⟨e, he⟩
  · subst he
    simp [runScript]
  · subst he
    cases er with
    | error e2 => simp [runScript]
    | ok u => simp [runScript]

/-- C4 witness: engine creation failure at concrete inputs. -/
theorem c4_setup_failure_fatal_witness :
    (runScript (Except.error "no driver") (Except.ok ()) "data/gold_tables"
      GOLD_VIEWS twoRowDb []).exitCode = 1 ∧
    (runScript (Except.error "no driver") (Except.ok ()) "data/gold_tables"
      GOLD_VIEWS twoRowDb []).state.criticalLogs ≠ [] ∧
    (runScript (Except.error "no driver") (Except.ok ()) "data/gold_tables"
      GOLD_VIEWS twoRowDb []).state.fs = [] ∧
    ∀ v, LogMsg.processingView v ∉
      (runScript (Except.error "no driver") (Except.ok ()) "data/gold_tables"
        GOLD_VIEWS twoRowDb []).state.infoLogs :=
  c4_setup_failure_fatal (Except.error "no driver") (Except.ok ())
    "data/gold_tables" GOLD_VIEWS twoRowDb [] (Or.inl ⟨"no driver", rfl⟩)

/-- C5: whenever engine creation and output directory creation succeed,
the run terminates with exit code 0 and logs the completion message
after processing every configured view, whatever the database does per
view (so even if some or all individual views failed). -/
theorem c5_normal_completion (dir : String) (views : List String)
    (db : Database) (fs0 : FileSystem) :
    (runScript (Except.ok ()) (Except.ok ()) dir views db fs0).exitCode = 0 ∧
    LogMsg.extractionComplete ∈
      (runScript (Except.ok ()) (Except.ok ()) dir views db fs0).state.infoLogs ∧
    ∀ v ∈ views, LogMsg.processingView v ∈
      (runScript (Except.ok ()) (Except.ok ()) dir views db fs0).state.infoLogs := by
  refine ⟨rfl, ?_, ?_⟩
  · exact List.mem_append_right _ (List.mem_singleton_self _)
  · intro v hv
    exact List.mem_append_left _ (extractionLoop_processing_mem dir db views _ v hv)

/-- C5 witness: a run whose every view fails still exits 0 with the
completion log. -/
theorem c5_normal_completion_witness :
    (runScript (Except.ok ()) (Except.ok ()) "data/gold_tables" GOLD_VIEWS
      failingDb []).exitCode = 0 ∧
    LogMsg.extractionComplete ∈
      (runScript (Except.ok ()) (Except.ok ()) "data/gold_tables" GOLD_VIEWS
        failingDb []).state.infoLogs ∧
    ∀ v ∈ GOLD_VIEWS, LogMsg.processingView v ∈
      (runScript (Except.ok ()) (Except.ok ()) "data/gold_tables" GOLD_VIEWS
        failingDb []).state.infoLogs :=
  c5_normal_completion "data/gold_tables" GOLD_VIEWS failingDb []

/-- C8: the database password is not stored in the configuration: it is
resolved by looking up the environment variable whose name the config
key password_env_var holds, so the resolved credential is exactly the
environment lookup of that name; when the variable is absent the result
is None, with no validation and no exception raised. -/
theorem c8_password_from_env (dbConfig : List (String × Yaml)) (env : Env)
    (varName : String)
    (hvar : yamlLookup dbConfig "password_env_var" = some (Yaml.str varName)) :
    resolvePassword dbConfig env = Except.ok (envLookup env varName) ∧
    (envLookup env varName = none →
      resolvePassword dbConfig env = Except.ok none) := by
  constructor
  · unfold resolvePassword
    rw [hvar]
  · intro habs
    unfold resolvePassword
    rw [hvar]
    simp [habs]

/-- C8 witness: a config naming the variable SQL_PWD and an environment
in which it is unset. -/
theorem c8_password_from_env_witness :
    resolvePassword [("password_env_var", Yaml.str "SQL_PWD")] [] =
      Except.ok (envLookup [] "SQL_PWD") ∧
    (envLookup [] "SQL_PWD" = none →
      resolvePassword [("password_env_var", Yaml.str "SQL_PWD")] [] =
        Except.ok none) :=
  c8_password_from_env [("password_env_var", Yaml.str "SQL_PWD")] [] "SQL_PWD" rfl

/-- C9: executing the module body of extract_data.py always raises
ImportError at line 40, before any configuration read, connection setup
or extraction: scripts.config binds no name load_yaml_config, so the
script body after the import section never runs. -/
theorem c9_import_error (er mr : Except String Unit) (dir : String)
    (views : List String) (db : Database) (fs0 : FileSystem) :
    importAndRun er mr dir views db fs0 =
      Except.error (PyExc.importError "cannot import name load_yaml_config") := rfl

/-- C1 does not hold of the code: with gold.dim_customers backed by one
chunk of two rows and both setup steps succeeding, the run creates no
CSV file at all, because the first to_csv call raises TypeError; the
view is logged as failed instead of producing a file with one header row
and two data rows. -/
theorem c1_no_csv_written :
    fsLookup (runScript (Except.ok ()) (Except.ok ()) "data/gold_tables"
        GOLD_VIEWS twoRowDb []).state.fs
      "data/gold_tables/gold.dim_customers.csv" = none ∧
    (runScript (Except.ok ()) (Except.ok ()) "data/gold_tables"
      GOLD_VIEWS twoRowDb []).state.fs = [] ∧
    (runScript (Except.ok ()) (Except.ok ()) "data/gold_tables"
      GOLD_VIEWS twoRowDb []).state.errorLogs =
      [LogMsg.errorExtracting "gold.dim_customers" pathKwErrMsg] :=
  ⟨rfl, rfl, rfl⟩

/-- C2 does not hold of the code: with gold.dim_customers empty (its
read_sql iterator yielding one empty chunk carrying the column names)
and both setup steps succeeding, the run creates no CSV file, because
the to_csv call for that chunk raises TypeError; no header-only file
appears. -/
theorem c2_no_header_only_csv :
    fsLookup (runScript (Except.ok ()) (Except.ok ()) "data/gold_tables"
        GOLD_VIEWS zeroRowDb []).state.fs
      "data/gold_tables/gold.dim_customers.csv" = none ∧
    (runScript (Except.ok ()) (Except.ok ()) "data/gold_tables"
      GOLD_VIEWS zeroRowDb []).state.fs = [] ∧
    (runScript (Except.ok ()) (Except.ok ()) "data/gold_tables"
      GOLD_VIEWS zeroRowDb []).state.errorLogs =
      [LogMsg.errorExtracting "gold.dim_customers" pathKwErrMsg] :=
  ⟨rfl, rfl, rfl⟩

end SqlAnalytics
